import Mathlib

/-!
# homebridge-cecotec-mambo: the `MamboPlatform` adapter of `index.js`

A shallow embedding of the platform class of `index.js` and the properties of
its polling callback and control-surface handlers.

* JavaScript values are the JSON values the plugin receives (`JsVal`).
* An `async` function is a function into `Run α`: the observable calls it
  makes, in order (`Effect`), and how its promise settles (`Except JsError α`).
* The outcome of each awaited HTTP request is an input of the model
  (`Outcome`): the vendor cloud is outside the program.
* A callback is modelled on its own: `this.token` and `this.recipes` keep
  their value while it runs, and the context of an accessory is read and
  written by its polling callback only, after the status request has settled.
* Modelled: `login`, `getStatus`, the five commands, `notify`, the four
  `onSet` handlers of the controls and the callback of `setInterval`.  The
  constructor, `discoverDevices` and the refresh-token switch are not.
-/

namespace Mambo

/-! ## JavaScript values -/

/-- JSON values as they reach the plugin from the configuration file, the host
and the vendor API.  Numbers carry an integer payload: the code only tests
them for zero and compares them for identity. -/
inductive JsVal where
  | undefined
  | null
  | bool (b : Bool)
  | num (n : Int)
  | str (s : String)
  | arr (items : List JsVal)
  | obj (fields : List (String × JsVal))

/-- What a rejected promise or a `throw` carries. -/
inductive JsError where
  /-- Reading a property of `undefined` or `null`. -/
  | typeError
  /-- The rejection of an `axios` request. -/
  | requestFailed

/-- JavaScript truthiness (`if (v)`, `!v`, `v || w`, `v && w`). -/
def truthy : JsVal → Bool
  | .undefined => false
  | .null => false
  | .bool b => b
  | .num n => n != 0
  | .str s => s != ""
  | .arr _ => true
  | .obj _ => true

/-- The operator `a || b`. -/
def jsOr (a b : JsVal) : JsVal := if truthy a then a else b

/-- The operator `a && b`. -/
def jsAnd (a b : JsVal) : JsVal := if truthy a then b else a

/-- The operator `a === b`.  Every `===` and `!==` of `index.js` compares two
values that come from two separately parsed JSON documents (the configuration
and a response, or two responses), so two arrays or two objects are never the
same reference. -/
def strictEq : JsVal → JsVal → Bool
  | .undefined, .undefined => true
  | .null, .null => true
  | .bool a, .bool b => a == b
  | .num a, .num b => a == b
  | .str a, .str b => a == b
  | _, _ => false

/-- Property read `v.key` for the keys the code reads (`active`, `token`,
`recipeId`, ...): a `TypeError` on `undefined` and `null`, the field of an
object, `undefined` when the object lacks it or `v` is another value. -/
def getProp (v : JsVal) (key : String) : Except JsError JsVal :=
  match v with
  | .undefined => .error .typeError
  | .null => .error .typeError
  | .obj fields => .ok ((fields.lookup key).getD .undefined)
  | _ => .ok .undefined

/-- Assignment of one property in an object literal: an existing key keeps its
position and takes the new value, a new key is appended. -/
def setField : List (String × JsVal) → String → JsVal → List (String × JsVal)
  | [], k, v => [(k, v)]
  | (k', v') :: rest, k, v =>
    if k' == k then (k, v) :: rest else (k', v') :: setField rest k v

/-- Object spread `{ ...base, ...extra }`. -/
def spread (base extra : List (String × JsVal)) : List (String × JsVal) :=
  extra.foldl (fun b kv => setField b kv.1 kv.2) base

/-! ## The host's surfaces and the observable calls -/

/-- The services `setupAccessory` adds to an accessory. -/
inductive Svc where
  | thermoService
  | recipeService
  | editService
  | endSensorService
  | startSensorService
  | stepSensorService
  | tempSensorService
  | humiditySensorService
  | pressureSensorService
  | weightSensorService
  | refreshTokenService
  deriving DecidableEq

/-- The characteristics the code reads or writes. -/
inductive Chr where
  | TargetTemperature
  | RotationSpeed
  | On
  | Active
  | ContactSensorState
  | CurrentTemperature
  | CurrentRelativeHumidity
  deriving DecidableEq

/-- The enumeration constants of `hap-nodejs` the code uses
(`Characteristic.Active.ACTIVE`, ...); the library is not part of the
repository, so they are a parameter. -/
structure Hap where
  ACTIVE : JsVal
  INACTIVE : JsVal
  CONTACT_DETECTED : JsVal
  CONTACT_NOT_DETECTED : JsVal

/-- One part of a logged line: literal text of the source, an interpolated
value (left unrendered), or the message of a caught error. -/
inductive Piece where
  | text (s : String)
  | value (v : JsVal)
  | message (e : JsError)

/-- The calls of the plugin that are visible outside it. -/
inductive Effect where
  /-- The call `axios.post(url, body, headers)`; `bearer` is the token of the
  `Authorization` header, `none` for the login request, which sends none. -/
  | post (url : String) (body : List (String × JsVal)) (bearer : Option JsVal)
  /-- The call `this.log(...)`. -/
  | log (pieces : List Piece)
  /-- The call `service.updateCharacteristic(chr, v)`. -/
  | update (svc : Svc) (chr : Chr) (v : JsVal)
  /-- The call `setTimeout(() => service.updateCharacteristic(chr, v), ms)`. -/
  | later (ms : Nat) (svc : Svc) (chr : Chr) (v : JsVal)

/-- How an awaited request settles. -/
inductive Outcome where
  | rejected
  | resolved (data : JsVal)

/-! ## Asynchronous functions -/

/-- A run of an `async` function: the calls made, in order, and the way the
returned promise settles. -/
structure Run (α : Type) where
  effects : List Effect
  result : Except JsError α

namespace Run

/-- A function that returns `a` without doing anything. -/
def ret {α : Type} (a : α) : Run α := ⟨[], .ok a⟩

/-- Sequencing: the continuation runs only if the first part did not throw. -/
def andThen {α β : Type} (r : Run α) (f : α → Run β) : Run β :=
  match r.result with
  | .ok a => ⟨r.effects ++ (f a).effects, (f a).result⟩
  | .error e => ⟨r.effects, .error e⟩

/-- Synchronous calls with no result. -/
def emit (es : List Effect) : Run Unit := ⟨es, .ok ()⟩

/-- A synchronous expression that may throw. -/
def eval {α : Type} (x : Except JsError α) : Run α := ⟨[], x⟩

/-- The statement `if (c) { body }` with no `else`. -/
def whenever (c : Bool) (body : Run Unit) : Run Unit :=
  if c then body else ret ()

/-- The construct `try { r } catch (err) { h err }` and `promise.catch(h)`. -/
def orElse {α : Type} (r : Run α) (h : JsError → Run α) : Run α :=
  match r.result with
  | .ok _ => r
  | .error e => ⟨r.effects ++ (h e).effects, (h e).result⟩

end Run

instance : Monad Run where
  pure := Run.ret
  bind := Run.andThen

/-- The call `axios.post(url, body, headers)`: the request is issued, and the
promise resolves to a response, represented by its `data`, or rejects. -/
def axiosPost (url : String) (body : List (String × JsVal)) (bearer : Option JsVal)
    (out : Outcome) : Run JsVal :=
  ⟨[.post url body bearer],
    match out with
    | .rejected => .error .requestFailed
    | .resolved data => .ok data⟩

/-! ## The platform -/

/-- One step of a recipe: a JSON object, as the list of its fields. -/
abbrev Step := List (String × JsVal)

/-- An entry of `config.recipes`: an object with an `id`, a `name` and an
optional array `steps` of step objects (`none` when the key is absent). -/
structure Recipe where
  id : JsVal
  name : JsVal
  steps : Option (List Step)

/-- The fields of `MamboPlatform` the modelled methods read: `this.token`,
`this.recipes`, `this.config.email` and `this.config.password`. -/
structure Platform where
  token : JsVal
  recipes : List Recipe
  email : JsVal
  password : JsVal

/-- An accessory as the callbacks see it: `acc.displayName` and `acc.context`
(`deviceId`, `cookingActive`, `lastNextStep`). -/
structure Accessory where
  displayName : JsVal
  deviceId : JsVal
  cookingActive : JsVal
  lastNextStep : JsVal

/-- The context `setupAccessory` gives an accessory (lines 52, 53 and 197). -/
def setupAccessory (displayName uuid : JsVal) : Accessory :=
  { displayName := displayName, deviceId := uuid,
    cookingActive := .bool false, lastNextStep := .null }

/-- The value of `recipe.steps`. -/
def Recipe.stepsVal (r : Recipe) : JsVal :=
  match r.steps with
  | some l => .arr (l.map .obj)
  | none => .undefined

/-- The method `login()`. -/
def login (p : Platform) (out : Outcome) : Run Platform :=
  Run.orElse
    (do
      let data ← axiosPost "https://api.cecotec.com/auth/login"
        [("email", p.email), ("password", p.password)] none out
      let token ← Run.eval (getProp data "token")
      Run.emit [.log [.text "Login exitoso"]]
      pure { p with token := token })
    (fun err => do
      Run.emit [.log [.text "Error login:", .message err]]
      pure p)

/-- The method `getStatus(deviceId)`. -/
def getStatus (p : Platform) (deviceId : JsVal) (out : Outcome) : Run JsVal :=
  if !truthy p.token then pure (.obj [])
  else
    Run.orElse
      (axiosPost "https://api.cecotec.com/mambo/status" [("deviceId", deviceId)]
        (some p.token) out)
      (fun _ => pure (.obj []))

/-- The method `createCustomRecipe(deviceId, recipe)`. -/
def createCustomRecipe (p : Platform) (deviceId : JsVal) (recipe : Recipe)
    (out : Outcome) : Run JsVal :=
  if !truthy p.token then pure .null
  else
    Run.orElse
      (do
        let data ← axiosPost "https://api.cecotec.com/mambo/createRecipe"
          [("deviceId", deviceId), ("name", recipe.name), ("steps", recipe.stepsVal)]
          (some p.token) out
        Run.eval (getProp data "recipeId"))
      (fun _ => pure .null)

/-- The method `editRecipe(deviceId, recipeId, updates)`. -/
def editRecipe (p : Platform) (deviceId recipeId : JsVal) (updates : List (String × JsVal))
    (out : Outcome) : Run JsVal :=
  if !truthy p.token then pure .undefined
  else
    axiosPost "https://api.cecotec.com/mambo/editRecipe"
      (spread [("deviceId", deviceId), ("recipeId", recipeId)] updates) (some p.token) out

/-- The method `startRecipe(deviceId, recipeId)`. -/
def startRecipe (p : Platform) (deviceId recipeId : JsVal) (out : Outcome) : Run JsVal :=
  if !truthy p.token then pure .undefined
  else
    axiosPost "https://api.cecotec.com/mambo/startRecipe"
      [("deviceId", deviceId), ("recipeId", recipeId)] (some p.token) out

/-- The method `stopRecipe(deviceId)`. -/
def stopRecipe (p : Platform) (deviceId : JsVal) (out : Outcome) : Run JsVal :=
  if !truthy p.token then pure .undefined
  else
    axiosPost "https://api.cecotec.com/mambo/stopRecipe" [("deviceId", deviceId)]
      (some p.token) out

/-- The method `keepWarm(deviceId)`. -/
def keepWarm (p : Platform) (deviceId : JsVal) (out : Outcome) : Run JsVal :=
  if !truthy p.token then pure .undefined
  else
    axiosPost "https://api.cecotec.com/mambo/keepwarm" [("deviceId", deviceId)]
      (some p.token) out

/-- The method `notify(message)`: `this.log('Notif: ' + message)`. -/
def notify (message : List Piece) : Run Unit :=
  Run.emit [.log (.text "Notif: " :: message)]

/-! ## The control-surface handlers of `setupAccessory` -/

/-- The `onSet` handler of `TargetTemperature` (lines 59-64). -/
def onSetTargetTemperature (p : Platform) (acc : Accessory) (keepWarmOut : Outcome)
    (value : JsVal) : Run Unit :=
  if strictEq value (.num 60) then do
    let _ ← keepWarm p acc.deviceId keepWarmOut
    Run.emit [.log [.value acc.displayName, .text ": Mantener caliente activado"]]
  else pure ()

/-- The element `this.recipes[value]` for the number the host passes. -/
def recipeAt (recipes : List Recipe) (value : Int) : Option Recipe :=
  if 0 ≤ value then recipes.get? value.toNat else none

/-- The `onSet` handler of `RotationSpeed`, the recipe selector (lines 71-86). -/
def onSetRotationSpeed (hap : Hap) (p : Platform) (acc : Accessory)
    (createOut startOut : Outcome) (value : Int) : Run Unit :=
  match recipeAt p.recipes value with
  | none => pure ()
  | some recipe => do
    let recipeId ←
      if truthy recipe.stepsVal then createCustomRecipe p acc.deviceId recipe createOut
      else pure recipe.id
    Run.whenever (truthy recipeId) (do
      let _ ← startRecipe p acc.deviceId recipeId startOut
      pure ())
    Run.emit
      [.log [.value acc.displayName, .text ": Iniciando ", .value recipe.name],
       .update .recipeService .Active hap.ACTIVE]

/-- The expression `currentRecipe.steps?.[0]` spread into an object literal:
the fields of the first step, none when there is no first step. -/
def firstStepFields (r : Recipe) : List (String × JsVal) :=
  match r.steps with
  | some (s :: _) => s
  | _ => []

/-- The object `updates` of the edit handler (line 97). -/
def editUpdates (currentRecipe : Recipe) : List (String × JsVal) :=
  [("name", .str "Receta Editada"),
   ("steps", .arr [.obj (setField (firstStepFields currentRecipe) "time" (.num 15))])]

/-- The statement `if (currentRecipe) { ... }` of the edit handler (lines
96-100), for the result of `this.recipes.find(...)`. -/
def editFound (p : Platform) (acc : Accessory) (editOut : Outcome) :
    Option Recipe → Run Unit
  | some currentRecipe => do
    let _ ← editRecipe p acc.deviceId currentRecipe.id (editUpdates currentRecipe) editOut
    Run.emit [.log [.value acc.displayName, .text ": Receta editada"]]
  | none => pure ()

/-- The `onSet` handler of the edit switch (lines 92-103). -/
def onSetEdit (p : Platform) (acc : Accessory) (statusOut editOut : Outcome)
    (value : JsVal) : Run Unit :=
  if truthy value then do
    let status ← getStatus p acc.deviceId statusOut
    let currentRecipeId ← Run.eval (getProp status "currentRecipeId")
    editFound p acc editOut (p.recipes.find? (fun r => strictEq r.id currentRecipeId))
    Run.emit [.update .editService .On (.bool false)]
  else pure ()

/-- The `onSet` handler of `Active` on the recipe service (lines 106-111). -/
def onSetActive (hap : Hap) (p : Platform) (acc : Accessory) (stopOut : Outcome)
    (value : JsVal) : Run Unit :=
  if strictEq value hap.INACTIVE then do
    let _ ← stopRecipe p acc.deviceId stopOut
    Run.emit [.log [.value acc.displayName, .text ": Parando receta"]]
  else pure ()

/-! ## The polling callback -/

/-- The method `Array.prototype.findIndex`: the first index whose element
satisfies the predicate, `-1` when there is none. -/
def findIndex {α : Type} (f : α → Bool) (l : List α) : Int :=
  match l.findIdx? f with
  | some i => (i : Int)
  | none => -1

/-- The three calls of a pulse: the contact sensor is set to detected and a
timer is armed that sets it back after 5000 ms. -/
def pulse (hap : Hap) (svc : Svc) : List Effect :=
  [.update svc .ContactSensorState hap.CONTACT_DETECTED,
   .later 5000 svc .ContactSensorState hap.CONTACT_NOT_DETECTED]

/-- The callback of `setInterval` (lines 150-195), one polling tick; it returns
the accessory with its updated context. -/
def tick (hap : Hap) (p : Platform) (acc : Accessory) (statusOut : Outcome) : Run Accessory :=
  if !truthy p.token then pure acc
  else do
    let status ← getStatus p acc.deviceId statusOut
    let wasActive := acc.cookingActive
    let active ← Run.eval (getProp status "active")
    let cookingActive := jsOr active (.bool false)
    let currentNextStep ← Run.eval (getProp status "nextStep")
    let newStepDetected :=
      jsAnd currentNextStep (.bool (!strictEq currentNextStep acc.lastNextStep))
    Run.whenever (truthy newStepDetected) (do
      notify [.value acc.displayName, .text ": Añadir paso: ", .value currentNextStep]
      Run.emit (pulse hap .stepSensorService))
    let finished ← Run.eval (getProp status "finished")
    Run.whenever (truthy (jsAnd finished wasActive)) (do
      notify [.value acc.displayName, .text ": Cocción terminada"]
      Run.emit [.update .recipeService .Active hap.INACTIVE]
      Run.emit (pulse hap .endSensorService))
    Run.whenever (truthy (jsAnd (.bool (!truthy wasActive)) cookingActive)) (do
      notify [.value acc.displayName, .text ": Cocción iniciada"]
      Run.emit (pulse hap .startSensorService))
    let temp ← Run.eval (getProp status "temp")
    let currentTemp := jsOr temp (.num 0)
    Run.emit [.update .thermoService .CurrentTemperature currentTemp]
    Run.emit [.update .tempSensorService .CurrentTemperature currentTemp]
    let humidity ← Run.eval (getProp status "humidity")
    let currentHumidity := jsOr humidity (.num 0)
    Run.emit [.update .humiditySensorService .CurrentRelativeHumidity currentHumidity]
    let pressure ← Run.eval (getProp status "pressure")
    let currentPressure := jsOr pressure (.num 1013)
    Run.emit [.update .pressureSensorService .CurrentTemperature currentPressure]
    let weight ← Run.eval (getProp status "weight")
    let currentWeight := jsOr weight (.num 0)
    Run.emit [.update .weightSensorService .CurrentTemperature currentWeight]
    let currentRecipeId ← Run.eval (getProp status "currentRecipeId")
    let activeRecipeIndex := findIndex (fun r => strictEq r.id currentRecipeId) p.recipes
    Run.whenever (decide (activeRecipeIndex ≥ 0))
      (Run.emit [.update .recipeService .RotationSpeed (.num activeRecipeIndex)])
    pure { acc with cookingActive := cookingActive, lastNextStep := currentNextStep }

/-! ## Vocabulary of the specification -/

/-- The snapshot a tick works on, as `getStatus` resolves it with a token
present: the body of the response, the empty object when the request fails. -/
def Outcome.status : Outcome → JsVal
  | .rejected => .obj []
  | .resolved data => data

/-- The values `undefined` and `null`, whose properties cannot be read. -/
def nullish : JsVal → Bool
  | .undefined => true
  | .null => true
  | _ => false

/-- The field `key` of a snapshot, `undefined` when it is absent. -/
def field (v : JsVal) (key : String) : JsVal :=
  match getProp v key with
  | .ok x => x
  | .error _ => .undefined

/-- New-step edge: the snapshot's `nextStep` is present and differs from the
stored `lastNextStep`. -/
def stepEdge (acc : Accessory) (status : JsVal) : Bool :=
  truthy (field status "nextStep") && !strictEq (field status "nextStep") acc.lastNextStep

/-- Cook-finished edge: the snapshot reports finished and the stored
`cookingActive` is set. -/
def finishedEdge (acc : Accessory) (status : JsVal) : Bool :=
  truthy (field status "finished") && truthy acc.cookingActive

/-- Cook-start edge: the stored `cookingActive` is not set and the snapshot's
active flag is. -/
def startEdge (acc : Accessory) (status : JsVal) : Bool :=
  !truthy acc.cookingActive && truthy (field status "active")

/-- The status request of `getStatus`. -/
def statusRequest (p : Platform) (acc : Accessory) : Effect :=
  .post "https://api.cecotec.com/mambo/status" [("deviceId", acc.deviceId)] (some p.token)

/-- The new-step notification. -/
def stepNotification (acc : Accessory) (step : JsVal) : Effect :=
  .log [.text "Notif: ", .value acc.displayName, .text ": Añadir paso: ", .value step]

/-- The finished notification. -/
def finishedNotification (acc : Accessory) : Effect :=
  .log [.text "Notif: ", .value acc.displayName, .text ": Cocción terminada"]

/-- The start notification. -/
def startNotification (acc : Accessory) : Effect :=
  .log [.text "Notif: ", .value acc.displayName, .text ": Cocción iniciada"]

/-- What a tick mirrors onto the sensor surfaces and the recipe selector for a
snapshot. -/
def mirrorEffects (p : Platform) (status : JsVal) : List Effect :=
  [.update .thermoService .CurrentTemperature (jsOr (field status "temp") (.num 0)),
   .update .tempSensorService .CurrentTemperature (jsOr (field status "temp") (.num 0)),
   .update .humiditySensorService .CurrentRelativeHumidity
     (jsOr (field status "humidity") (.num 0)),
   .update .pressureSensorService .CurrentTemperature
     (jsOr (field status "pressure") (.num 1013)),
   .update .weightSensorService .CurrentTemperature (jsOr (field status "weight") (.num 0))] ++
  (if decide (findIndex (fun r => strictEq r.id (field status "currentRecipeId")) p.recipes ≥ 0)
   then
    [.update .recipeService .RotationSpeed
      (.num (findIndex (fun r => strictEq r.id (field status "currentRecipeId")) p.recipes))]
   else [])

/-- Recognises a start notification among the calls. -/
def isStartNotification : Effect → Bool
  | .log [.text a, .value _, .text b] => a == "Notif: " && b == ": Cocción iniciada"
  | _ => false

/-- Recognises a finished notification among the calls. -/
def isFinishedNotification : Effect → Bool
  | .log [.text a, .value _, .text b] => a == "Notif: " && b == ": Cocción terminada"
  | _ => false

/-- Recognises a new-step notification among the calls. -/
def isStepNotification : Effect → Bool
  | .log [.text a, .value _, .text b, .value _] => a == "Notif: " && b == ": Añadir paso: "
  | _ => false

/-- Recognises any notification: a logged line that `notify` produced. -/
def isNotification : Effect → Bool
  | .log (.text a :: _) => a == "Notif: "
  | _ => false

/-- Recognises a write to a contact sensor, immediate or armed by a timer. -/
def isContactWrite : Effect → Bool
  | .update _ .ContactSensorState _ => true
  | .later _ _ .ContactSensorState _ => true
  | _ => false

/-- One tick of the timer of an accessory: the context it found, how its
status request settled, and what the callback did. -/
structure TickRecord where
  before : Accessory
  out : Outcome
  run : Run Accessory

/-- The context a tick leaves: the one its callback returns; a callback that
throws does so on its first read of the snapshot, before any assignment, and
leaves the context as it was. -/
def contextAfter (acc : Accessory) (r : Run Accessory) : Accessory :=
  match r.result with
  | .ok acc' => acc'
  | .error _ => acc

/-- Consecutive ticks of the timer of one accessory, one per outcome of the
status request. -/
def poll (hap : Hap) (p : Platform) : Accessory → List Outcome → List TickRecord
  | _, [] => []
  | acc, out :: rest =>
    ⟨acc, out, tick hap p acc out⟩ :: poll hap p (contextAfter acc (tick hap p acc out)) rest

/-- The active flag of the snapshot of a tick. -/
def activeFlag (out : Outcome) : Bool := truthy (field out.status "active")

/-- The finished flag of the snapshot of a tick. -/
def finishedFlag (out : Outcome) : Bool := truthy (field out.status "finished")

/-- The `nextStep` of the snapshot of a tick. -/
def nextStepOf (out : Outcome) : JsVal := field out.status "nextStep"

/-- For a sequence of active flags and the flag before it, marks with 1 each
position that is a false-to-true transition. -/
def risingMarks : Bool → List Bool → List Nat
  | _, [] => []
  | prev, b :: rest => (if !prev && b then 1 else 0) :: risingMarks b rest

/-- The number of false-to-true transitions of a sequence of flags. -/
def risingEdges (prev : Bool) (flags : List Bool) : Nat := (risingMarks prev flags).sum

/-- For a sequence of (active, finished) flags and the active flag before it,
marks with 1 each position whose finished flag is set while the preceding
active flag was set. -/
def finishedMarks : Bool → List (Bool × Bool) → List Nat
  | _, [] => []
  | prev, (a, f) :: rest => (if f && prev then 1 else 0) :: finishedMarks a rest

/-- For a sequence of `nextStep` values and the value before it, marks with 1
each position whose value is present and differs from the preceding one. -/
def stepMarks : JsVal → List JsVal → List Nat
  | _, [] => []
  | prev, s :: rest => (if truthy s && !strictEq s prev then 1 else 0) :: stepMarks s rest

/-- Calls made before a run. -/
def Run.after {α : Type} (es : List Effect) (r : Run α) : Run α :=
  ⟨es ++ r.effects, r.result⟩

/-- The stored `cookingActive` is the boolean `false` or a truthy value. -/
def CookingFlagOk (acc : Accessory) : Prop :=
  acc.cookingActive = .bool false ∨ truthy acc.cookingActive = true

/-- The id `createCustomRecipe` resolves to once its request is sent: the
`recipeId` of the response, `null` when the request fails or the body of the
response has no readable fields. -/
def createdId (out : Outcome) : JsVal :=
  match out with
  | .rejected => .null
  | .resolved data =>
    match getProp data "recipeId" with
    | .ok v => v
    | .error _ => .null

/-- The create-recipe request for a recipe. -/
def createRequest (p : Platform) (acc : Accessory) (recipe : Recipe) : Effect :=
  .post "https://api.cecotec.com/mambo/createRecipe"
    [("deviceId", acc.deviceId), ("name", recipe.name), ("steps", recipe.stepsVal)]
    (some p.token)

/-- The start-recipe request for a recipe id. -/
def startRequest (p : Platform) (acc : Accessory) (recipeId : JsVal) : Effect :=
  .post "https://api.cecotec.com/mambo/startRecipe"
    [("deviceId", acc.deviceId), ("recipeId", recipeId)] (some p.token)

/-- The edit-recipe request the edit handler sends for a recipe. -/
def editRequest (p : Platform) (acc : Accessory) (recipe : Recipe) : Effect :=
  .post "https://api.cecotec.com/mambo/editRecipe"
    [("deviceId", acc.deviceId), ("recipeId", recipe.id), ("name", .str "Receta Editada"),
     ("steps", .arr [.obj (setField (firstStepFields recipe) "time" (.num 15))])]
    (some p.token)

/-- Recognises a remote call. -/
def isPost : Effect → Bool
  | .post _ _ _ => true
  | _ => false

/-- Recognises a create-recipe request. -/
def isCreateRequest : Effect → Bool
  | .post url _ _ => url == "https://api.cecotec.com/mambo/createRecipe"
  | _ => false

/-- Recognises a start-recipe request. -/
def isStartRequest : Effect → Bool
  | .post url _ _ => url == "https://api.cecotec.com/mambo/startRecipe"
  | _ => false

/-- Recognises an edit-recipe request. -/
def isEditRequest : Effect → Bool
  | .post url _ _ => url == "https://api.cecotec.com/mambo/editRecipe"
  | _ => false

/-- The line the recipe selector logs. -/
def selectorLog (acc : Accessory) (recipe : Recipe) : Effect :=
  .log [.value acc.displayName, .text ": Iniciando ", .value recipe.name]

/-- The line the edit handler logs. -/
def editLog (acc : Accessory) : Effect :=
  .log [.value acc.displayName, .text ": Receta editada"]

/-- The way a promise of `axios` settles, as a result. -/
def Outcome.settle : Outcome → Except JsError JsVal
  | .rejected => .error .requestFailed
  | .resolved data => .ok data

/-- Whether a request fails. -/
def Outcome.fails : Outcome → Bool
  | .rejected => true
  | .resolved _ => false

/-- The `recipeId` the recipe selector obtains for a recipe: what
`createCustomRecipe` resolves to when the recipe carries steps, the recipe's
own id otherwise. -/
def selectedId (p : Platform) (recipe : Recipe) (createOut : Outcome) : JsVal :=
  if truthy recipe.stepsVal then
    (if truthy p.token then createdId createOut else .null)
  else recipe.id

/-- The login request. -/
def loginRequest (p : Platform) : Effect :=
  .post "https://api.cecotec.com/auth/login" [("email", p.email), ("password", p.password)]
    none

/-! ## Concrete inputs -/

/-- The constants as `hap-nodejs` defines them. -/
def exampleHap : Hap :=
  { ACTIVE := .num 1, INACTIVE := .num 0, CONTACT_DETECTED := .num 0,
    CONTACT_NOT_DETECTED := .num 1 }

/-- A platform with a token and two recipes: one with inline steps and no id,
one with an id and no steps. -/
def examplePlatform : Platform :=
  { token := .str "t",
    recipes :=
      [{ id := .undefined, name := .str "Custom",
         steps := some [[("time", .num 5), ("speed", .num 2)]] },
       { id := .num 7, name := .str "Rice", steps := none }],
    email := .str "e", password := .str "pw" }

/-- The same platform before any login: no token. -/
def loggedOutPlatform : Platform := { examplePlatform with token := .null }

/-- An accessory fresh from `setupAccessory`. -/
def exampleAccessory : Accessory := setupAccessory (.str "Mambo") (.str "uuid")

/-- Four snapshots with `active` = false, true, true, false, `finished` set
only on the fourth. -/
def cookingOutcomes : List Outcome :=
  [.resolved (.obj [("active", .bool false)]),
   .resolved (.obj [("active", .bool true)]),
   .resolved (.obj [("active", .bool true)]),
   .resolved (.obj [("active", .bool false), ("finished", .bool true)])]

/-- Three snapshots with `nextStep` = "Add salt", "Add salt", "Stir". -/
def stepOutcomes : List Outcome :=
  [.resolved (.obj [("nextStep", .str "Add salt")]),
   .resolved (.obj [("nextStep", .str "Add salt")]),
   .resolved (.obj [("nextStep", .str "Stir")])]

/-- A platform with a token whose only recipe has the id 0 and no steps. -/
def zeroIdPlatform : Platform :=
  { token := .str "t",
    recipes := [{ id := .num 0, name := .str "Rice", steps := none }],
    email := .str "e", password := .str "pw" }

/-! ## Lemmas on runs -/

theorem bind_eval_ok {α β : Type} (x : α) (f : α → Run β) :
    (Run.eval (.ok x) >>= f) = f x := by
  show Run.andThen _ _ = _
  simp [Run.andThen, Run.eval]

theorem bind_eval_error {α β : Type} (e : JsError) (f : α → Run β) :
    (Run.eval (.error e) >>= f) = ⟨[], .error e⟩ := by
  show Run.andThen _ _ = _
  simp [Run.andThen, Run.eval]

theorem bind_mk_ok {α β : Type} (es : List Effect) (a : α) (f : α → Run β) :
    ((⟨es, .ok a⟩ : Run α) >>= f) = Run.after es (f a) := by
  show Run.andThen _ _ = _
  simp [Run.andThen, Run.after]

theorem bind_mk_error {α β : Type} (es : List Effect) (e : JsError) (f : α → Run β) :
    ((⟨es, .error e⟩ : Run α) >>= f) = ⟨es, .error e⟩ := by
  show Run.andThen _ _ = _
  simp [Run.andThen]

theorem bind_pure {α β : Type} (a : α) (f : α → Run β) :
    ((pure a : Run α) >>= f) = f a := by
  show Run.andThen _ _ = _
  simp [Run.andThen, pure, Run.ret]

theorem bind_whenever {β : Type} (c : Bool) (es : List Effect) (f : Unit → Run β) :
    (Run.whenever c ⟨es, .ok ()⟩ >>= f) = Run.after (if c then es else []) (f ()) := by
  cases c
  · show Run.andThen _ _ = _
    simp [Run.whenever, Run.andThen, Run.ret, Run.after]
  · simpa [Run.whenever] using bind_mk_ok es () f

theorem after_mk {α : Type} (es es' : List Effect) (x : Except JsError α) :
    Run.after es ⟨es', x⟩ = ⟨es ++ es', x⟩ := rfl

theorem after_pure {α : Type} (es : List Effect) (a : α) :
    Run.after es (pure a) = ⟨es, .ok a⟩ := by
  simp [Run.after, pure, Run.ret]

theorem after_after {α : Type} (es es' : List Effect) (r : Run α) :
    Run.after es (Run.after es' r) = Run.after (es ++ es') r := by
  simp [Run.after]

theorem emit_eq (es : List Effect) : Run.emit es = ⟨es, .ok ()⟩ := rfl

theorem pure_eq {α : Type} (a : α) : (pure a : Run α) = ⟨[], .ok a⟩ := rfl

theorem truthy_bool (b : Bool) : truthy (.bool b) = b := rfl

/-! ## The operations, case by case -/

theorem getProp_of_not_nullish {v : JsVal} (h : nullish v = false) (key : String) :
    getProp v key = .ok (field v key) := by
  cases v <;> simp_all [nullish, getProp, field]

theorem getStatus_of_token {p : Platform} (h : truthy p.token = true) (deviceId : JsVal)
    (out : Outcome) :
    getStatus p deviceId out =
      ⟨[.post "https://api.cecotec.com/mambo/status" [("deviceId", deviceId)] (some p.token)],
        .ok out.status⟩ := by
  cases out <;> simp [getStatus, h, Run.orElse, axiosPost, Outcome.status, pure, Run.ret]

/-- A tick with a token present and a snapshot whose fields can be read: the
calls it makes, in order, and the context it leaves. -/
theorem tick_eq (hap : Hap) (p : Platform) (acc : Accessory) (out : Outcome)
    (htoken : truthy p.token = true) (hstatus : nullish out.status = false) :
    tick hap p acc out =
      ⟨statusRequest p acc ::
        ((if stepEdge acc out.status then
            stepNotification acc (field out.status "nextStep") :: pulse hap .stepSensorService
          else []) ++
         (if finishedEdge acc out.status then
            finishedNotification acc :: .update .recipeService .Active hap.INACTIVE ::
              pulse hap .endSensorService
          else []) ++
         (if startEdge acc out.status then
            startNotification acc :: pulse hap .startSensorService
          else []) ++
         mirrorEffects p out.status),
       .ok { acc with
              cookingActive := jsOr (field out.status "active") (.bool false),
              lastNextStep := field out.status "nextStep" }⟩ := by
  have e1 : truthy (jsAnd (field out.status "nextStep")
      (.bool (!strictEq (field out.status "nextStep") acc.lastNextStep))) =
      stepEdge acc out.status := by
    unfold jsAnd stepEdge
    cases h : truthy (field out.status "nextStep") <;> simp [h, truthy_bool]
  have e2 : truthy (jsAnd (field out.status "finished") acc.cookingActive) =
      finishedEdge acc out.status := by
    unfold jsAnd finishedEdge
    cases h : truthy (field out.status "finished") <;> simp [h]
  have e3 : truthy (jsAnd (.bool (!truthy acc.cookingActive))
      (jsOr (field out.status "active") (.bool false))) = startEdge acc out.status := by
    unfold jsAnd jsOr startEdge
    cases h : truthy acc.cookingActive <;> cases h' : truthy (field out.status "active") <;>
      simp [h, h', truthy_bool]
  simp only [tick, htoken, getStatus_of_token, getProp_of_not_nullish hstatus, bind_eval_ok,
    notify, emit_eq, bind_mk_ok, bind_whenever, after_mk, after_after, after_pure, e1, e2, e3]
  simp [statusRequest, stepNotification, finishedNotification, startNotification, mirrorEffects]

/-! ## The edges of a tick -/

theorem tick_start (hap : Hap) (p : Platform) (acc : Accessory) (out : Outcome)
    (htoken : truthy p.token = true) (hstatus : nullish out.status = false) :
    (startNotification acc ∈ (tick hap p acc out).effects ↔ startEdge acc out.status = true) ∧
    (Effect.update .startSensorService .ContactSensorState hap.CONTACT_DETECTED ∈
        (tick hap p acc out).effects ↔ startEdge acc out.status = true) ∧
    (Effect.later 5000 .startSensorService .ContactSensorState hap.CONTACT_NOT_DETECTED ∈
        (tick hap p acc out).effects ↔ startEdge acc out.status = true) ∧
    (tick hap p acc out).effects.countP isStartNotification =
      (if startEdge acc out.status then 1 else 0) := by
  rw [tick_eq hap p acc out htoken hstatus]
  cases h1 : stepEdge acc out.status <;> cases h2 : finishedEdge acc out.status <;>
    cases h3 : startEdge acc out.status <;>
    cases h4 : decide (findIndex (fun r => strictEq r.id (field out.status "currentRecipeId")) p.recipes ≥ 0) <;>
    simp [h4, statusRequest, stepNotification, finishedNotification, startNotification, mirrorEffects, pulse, isStartNotification, List.countP_cons]

theorem truthy_jsOr_false (v : JsVal) : truthy (jsOr v (.bool false)) = truthy v := by
  unfold jsOr
  cases h : truthy v <;> simp [h, truthy_bool]

theorem cookingFlagOk_jsOr (v : JsVal) :
    jsOr v (.bool false) = .bool false ∨ truthy (jsOr v (.bool false)) = true := by
  unfold jsOr
  cases h : truthy v <;> simp [h]

theorem contextAfter_tick (hap : Hap) (p : Platform) (acc : Accessory) (out : Outcome)
    (htoken : truthy p.token = true) (hstatus : nullish out.status = false) :
    contextAfter acc (tick hap p acc out) =
      { acc with
          cookingActive := jsOr (field out.status "active") (.bool false),
          lastNextStep := field out.status "nextStep" } := by
  rw [tick_eq hap p acc out htoken hstatus]
  rfl

/-- Every tick of a run of the timer is the callback applied to the context
the tick found, and the stored `cookingActive` stays `false` or truthy. -/
theorem poll_mem (hap : Hap) (p : Platform) (htoken : truthy p.token = true) :
    ∀ (outs : List Outcome) (acc : Accessory),
      (∀ out ∈ outs, nullish out.status = false) → CookingFlagOk acc →
      ∀ t ∈ poll hap p acc outs,
        t.run = tick hap p t.before t.out ∧ nullish t.out.status = false ∧
          CookingFlagOk t.before := by
  intro outs
  induction outs with
  | nil => intro acc _ _ t ht; simp [poll] at ht
  | cons out rest ih =>
    intro acc hread hacc t ht
    have hout : nullish out.status = false := hread out (List.mem_cons_self _ _)
    simp only [poll, List.mem_cons] at ht
    rcases ht with rfl | ht
    · exact ⟨rfl, hout, hacc⟩
    · refine ih _ (fun o ho => hread o (List.mem_cons_of_mem _ ho)) ?_ t ht
      rw [contextAfter_tick hap p acc out htoken hout]
      exact cookingFlagOk_jsOr _

theorem poll_start_counts (hap : Hap) (p : Platform) (htoken : truthy p.token = true) :
    ∀ (outs : List Outcome) (acc : Accessory),
      (∀ out ∈ outs, nullish out.status = false) →
      (poll hap p acc outs).map (fun t => t.run.effects.countP isStartNotification) =
        risingMarks (truthy acc.cookingActive) (outs.map activeFlag) := by
  intro outs
  induction outs with
  | nil => intro acc _; simp [poll, risingMarks]
  | cons out rest ih =>
    intro acc hread
    have hout : nullish out.status = false := hread out (List.mem_cons_self _ _)
    simp only [poll, List.map_cons, risingMarks]
    rw [ih _ (fun o ho => hread o (List.mem_cons_of_mem _ ho)),
      contextAfter_tick hap p acc out htoken hout, (tick_start hap p acc out htoken hout).2.2.2]
    simp [truthy_jsOr_false, startEdge, activeFlag]

theorem cookingActive_false_iff {acc : Accessory} (h : CookingFlagOk acc) :
    acc.cookingActive = .bool false ↔ truthy acc.cookingActive = false := by
  constructor
  · intro e; rw [e]; rfl
  · intro e
    rcases h with h | h
    · exact h
    · rw [h] at e; cases e

theorem tick_finished (hap : Hap) (p : Platform) (acc : Accessory) (out : Outcome)
    (htoken : truthy p.token = true) (hstatus : nullish out.status = false) :
    (finishedNotification acc ∈ (tick hap p acc out).effects ↔
        finishedEdge acc out.status = true) ∧
    (Effect.update .recipeService .Active hap.INACTIVE ∈ (tick hap p acc out).effects ↔
        finishedEdge acc out.status = true) ∧
    (Effect.update .endSensorService .ContactSensorState hap.CONTACT_DETECTED ∈
        (tick hap p acc out).effects ↔ finishedEdge acc out.status = true) ∧
    (Effect.later 5000 .endSensorService .ContactSensorState hap.CONTACT_NOT_DETECTED ∈
        (tick hap p acc out).effects ↔ finishedEdge acc out.status = true) ∧
    (tick hap p acc out).effects.countP isFinishedNotification =
      (if finishedEdge acc out.status then 1 else 0) := by
  rw [tick_eq hap p acc out htoken hstatus]
  cases h1 : stepEdge acc out.status <;> cases h2 : finishedEdge acc out.status <;>
    cases h3 : startEdge acc out.status <;>
    cases h4 : decide (findIndex (fun r => strictEq r.id (field out.status "currentRecipeId"))
      p.recipes ≥ 0) <;>
    simp [h4, statusRequest, stepNotification, finishedNotification, startNotification,
      mirrorEffects, pulse, isFinishedNotification, List.countP_cons]

theorem tick_step (hap : Hap) (p : Platform) (acc : Accessory) (out : Outcome)
    (htoken : truthy p.token = true) (hstatus : nullish out.status = false) :
    (stepNotification acc (field out.status "nextStep") ∈ (tick hap p acc out).effects ↔
        stepEdge acc out.status = true) ∧
    (Effect.update .stepSensorService .ContactSensorState hap.CONTACT_DETECTED ∈
        (tick hap p acc out).effects ↔ stepEdge acc out.status = true) ∧
    (Effect.later 5000 .stepSensorService .ContactSensorState hap.CONTACT_NOT_DETECTED ∈
        (tick hap p acc out).effects ↔ stepEdge acc out.status = true) ∧
    (tick hap p acc out).effects.countP isStepNotification =
      (if stepEdge acc out.status then 1 else 0) := by
  rw [tick_eq hap p acc out htoken hstatus]
  cases h1 : stepEdge acc out.status <;> cases h2 : finishedEdge acc out.status <;>
    cases h3 : startEdge acc out.status <;>
    cases h4 : decide (findIndex (fun r => strictEq r.id (field out.status "currentRecipeId"))
      p.recipes ≥ 0) <;>
    simp [h4, statusRequest, stepNotification, finishedNotification, startNotification,
      mirrorEffects, pulse, isStepNotification, List.countP_cons]

theorem poll_finished_counts (hap : Hap) (p : Platform) (htoken : truthy p.token = true) :
    ∀ (outs : List Outcome) (acc : Accessory),
      (∀ out ∈ outs, nullish out.status = false) →
      (poll hap p acc outs).map (fun t => t.run.effects.countP isFinishedNotification) =
        finishedMarks (truthy acc.cookingActive)
          (outs.map (fun out => (activeFlag out, finishedFlag out))) := by
  intro outs
  induction outs with
  | nil => intro acc _; simp [poll, finishedMarks]
  | cons out rest ih =>
    intro acc hread
    have hout : nullish out.status = false := hread out (List.mem_cons_self _ _)
    simp only [poll, List.map_cons, finishedMarks]
    rw [ih _ (fun o ho => hread o (List.mem_cons_of_mem _ ho)),
      contextAfter_tick hap p acc out htoken hout, (tick_finished hap p acc out htoken hout).2.2.2.2]
    simp [truthy_jsOr_false, finishedEdge, activeFlag, finishedFlag]

theorem poll_step_counts (hap : Hap) (p : Platform) (htoken : truthy p.token = true) :
    ∀ (outs : List Outcome) (acc : Accessory),
      (∀ out ∈ outs, nullish out.status = false) →
      (poll hap p acc outs).map (fun t => t.run.effects.countP isStepNotification) =
        stepMarks acc.lastNextStep (outs.map nextStepOf) := by
  intro outs
  induction outs with
  | nil => intro acc _; simp [poll, stepMarks]
  | cons out rest ih =>
    intro acc hread
    have hout : nullish out.status = false := hread out (List.mem_cons_self _ _)
    simp only [poll, List.map_cons, stepMarks]
    rw [ih _ (fun o ho => hread o (List.mem_cons_of_mem _ ho)),
      contextAfter_tick hap p acc out htoken hout, (tick_step hap p acc out htoken hout).2.2.2]
    simp [stepEdge, nextStepOf]

theorem strictEq_str_self (s : String) : strictEq (.str s) (.str s) = true := by
  simp [strictEq]

theorem stepMarks_repeat (s : String) :
    ∀ n : Nat, stepMarks (.str s) (List.replicate n (.str s)) = List.replicate n 0 := by
  intro n
  induction n with
  | zero => rfl
  | succ n ih => simp [List.replicate_succ, stepMarks, strictEq_str_self, ih]

/-! ## The claims on the polling callback -/

/-- C1: over consecutive ticks of one accessory, starting from the context of
`setupAccessory` with a token present, a tick emits the start notification and
pulses the start contact sensor exactly when the `cookingActive` stored before
the tick is `false` and the snapshot's active flag is truthy; the number of
start notifications is the number of false-to-true transitions of the active
flags counted from the initial `false`, and for active flags false, true,
true, false exactly one is emitted, on the second tick. -/
theorem start_notification_on_rising_edge (hap : Hap) (p : Platform)
    (displayName uuid : JsVal) (outs : List Outcome)
    (htoken : truthy p.token = true)
    (hread : ∀ out ∈ outs, nullish out.status = false) :
    (∀ t ∈ poll hap p (setupAccessory displayName uuid) outs,
      (startNotification t.before ∈ t.run.effects ↔
        (t.before.cookingActive = .bool false ∧ activeFlag t.out = true)) ∧
      (Effect.update .startSensorService .ContactSensorState hap.CONTACT_DETECTED ∈
          t.run.effects ↔
        (t.before.cookingActive = .bool false ∧ activeFlag t.out = true)) ∧
      (Effect.later 5000 .startSensorService .ContactSensorState hap.CONTACT_NOT_DETECTED ∈
          t.run.effects ↔
        (t.before.cookingActive = .bool false ∧ activeFlag t.out = true)) ∧
      (t.run.effects.countP isStartNotification = 1 ↔
        (t.before.cookingActive = .bool false ∧ activeFlag t.out = true)) ∧
      t.run.effects.countP isStartNotification ≤ 1) ∧
    ((poll hap p (setupAccessory displayName uuid) outs).map
        (fun t => t.run.effects.countP isStartNotification)).sum =
      risingEdges false (outs.map activeFlag) ∧
    (outs.map activeFlag = [false, true, true, false] →
      (poll hap p (setupAccessory displayName uuid) outs).map
        (fun t => t.run.effects.countP isStartNotification) = [0, 1, 0, 0]) := by
  have hcounts := poll_start_counts hap p htoken outs (setupAccessory displayName uuid) hread
  refine ⟨?_, ?_, ?_⟩
  · intro t ht
    obtain ⟨hrun, hst, hok⟩ := poll_mem hap p htoken outs (setupAccessory displayName uuid)
      hread (Or.inl rfl) t ht
    have hedge : startEdge t.before t.out.status = true ↔
        (t.before.cookingActive = .bool false ∧ activeFlag t.out = true) := by
      rw [cookingActive_false_iff hok]
      simp [startEdge, activeFlag]
    obtain ⟨h1, h2, h3, h4⟩ := tick_start hap p t.before t.out htoken hst
    rw [hrun, ← hedge, h4]
    refine ⟨h1, h2, h3, ?_, ?_⟩
    · cases startEdge t.before t.out.status <;> simp
    · cases startEdge t.before t.out.status <;> simp
  · rw [hcounts]; rfl
  · intro h
    rw [hcounts, h]
    rfl

theorem start_notification_on_rising_edge_witness :
    truthy examplePlatform.token = true ∧
    (∀ out ∈ cookingOutcomes, nullish out.status = false) ∧
    (poll exampleHap examplePlatform (setupAccessory (.str "Mambo") (.str "uuid"))
        cookingOutcomes).map (fun t => t.run.effects.countP isStartNotification) = [0, 1, 0, 0] :=
  ⟨rfl, by simp [cookingOutcomes, Outcome.status, nullish],
    (start_notification_on_rising_edge exampleHap examplePlatform (.str "Mambo") (.str "uuid")
      cookingOutcomes rfl (by simp [cookingOutcomes, Outcome.status, nullish])).2.2 rfl⟩


/-- C2: on a tick with a token present the finished notification is emitted,
the recipe-active indicator is set to INACTIVE and the end contact sensor is
pulsed exactly when the snapshot's finished flag is truthy and the
`cookingActive` stored before the tick is set; over consecutive ticks from the
context of `setupAccessory` that stored value is the active flag of the
preceding snapshot, no finished notification is emitted on a tick that found
`cookingActive` false, and for active flags false, true, true, false with
finished set only on the fourth snapshot exactly one is emitted, on the fourth
tick. -/
theorem finished_notification_on_previous_active (hap : Hap) (p : Platform)
    (acc : Accessory) (out : Outcome) (displayName uuid : JsVal) (outs : List Outcome)
    (htoken : truthy p.token = true) (hout : nullish out.status = false)
    (hread : ∀ o ∈ outs, nullish o.status = false) :
    ((finishedNotification acc ∈ (tick hap p acc out).effects ↔
        (finishedFlag out = true ∧ truthy acc.cookingActive = true)) ∧
      (Effect.update .recipeService .Active hap.INACTIVE ∈ (tick hap p acc out).effects ↔
        (finishedFlag out = true ∧ truthy acc.cookingActive = true)) ∧
      (Effect.update .endSensorService .ContactSensorState hap.CONTACT_DETECTED ∈
          (tick hap p acc out).effects ↔
        (finishedFlag out = true ∧ truthy acc.cookingActive = true)) ∧
      (Effect.later 5000 .endSensorService .ContactSensorState hap.CONTACT_NOT_DETECTED ∈
          (tick hap p acc out).effects ↔
        (finishedFlag out = true ∧ truthy acc.cookingActive = true)) ∧
      (tick hap p acc out).effects.countP isFinishedNotification =
        (if finishedFlag out && truthy acc.cookingActive then 1 else 0)) ∧
    (∀ t ∈ poll hap p (setupAccessory displayName uuid) outs,
      t.before.cookingActive = .bool false →
        finishedNotification t.before ∉ t.run.effects ∧
          t.run.effects.countP isFinishedNotification = 0) ∧
    (poll hap p (setupAccessory displayName uuid) outs).map
        (fun t => t.run.effects.countP isFinishedNotification) =
      finishedMarks false (outs.map (fun o => (activeFlag o, finishedFlag o))) ∧
    (outs.map activeFlag = [false, true, true, false] →
      outs.map finishedFlag = [false, false, false, true] →
      (poll hap p (setupAccessory displayName uuid) outs).map
        (fun t => t.run.effects.countP isFinishedNotification) = [0, 0, 0, 1]) := by
  have hedge : ∀ (a : Accessory) (o : Outcome), finishedEdge a o.status = true ↔
      (finishedFlag o = true ∧ truthy a.cookingActive = true) := by
    intro a o; simp [finishedEdge, finishedFlag]
  have hcounts := poll_finished_counts hap p htoken outs (setupAccessory displayName uuid) hread
  refine ⟨?_, ?_, hcounts, ?_⟩
  · obtain ⟨h1, h2, h3, h4, h5⟩ := tick_finished hap p acc out htoken hout
    rw [← hedge]
    exact ⟨h1, h2, h3, h4, by rw [h5]; rfl⟩
  · intro t ht hfalse
    obtain ⟨hrun, hst, -⟩ := poll_mem hap p htoken outs (setupAccessory displayName uuid)
      hread (Or.inl rfl) t ht
    obtain ⟨h1, -, -, -, h5⟩ := tick_finished hap p t.before t.out htoken hst
    have hno : finishedEdge t.before t.out.status = false := by
      simp [finishedEdge, hfalse, truthy_bool]
    rw [hrun, h1, h5, hno]
    simp
  · intro ha hf
    have hzip : outs.map (fun o => (activeFlag o, finishedFlag o)) =
        List.zip (outs.map activeFlag) (outs.map finishedFlag) := by
      rw [List.zip_map']
    rw [hcounts, hzip, ha, hf]
    rfl

theorem finished_notification_on_previous_active_witness :
    truthy examplePlatform.token = true ∧
    (∀ o ∈ cookingOutcomes, nullish o.status = false) ∧
    (poll exampleHap examplePlatform (setupAccessory (.str "Mambo") (.str "uuid"))
        cookingOutcomes).map (fun t => t.run.effects.countP isFinishedNotification) =
      [0, 0, 0, 1] :=
  ⟨rfl, by simp [cookingOutcomes, Outcome.status, nullish],
    (finished_notification_on_previous_active exampleHap examplePlatform exampleAccessory
      (.resolved (.obj [])) (.str "Mambo") (.str "uuid") cookingOutcomes rfl rfl
      (by simp [cookingOutcomes, Outcome.status, nullish])).2.2.2 rfl rfl⟩

/-- C3: over consecutive ticks of one accessory, starting from the context of
`setupAccessory` (`lastNextStep` null) with a token present, a tick emits the
new-step notification and pulses the step contact sensor exactly when the
snapshot's `nextStep` is truthy and differs (`!==`) from the `lastNextStep`
stored before the tick, and after the tick `lastNextStep` is the snapshot's
`nextStep`, absent or not; the notifications mark the positions whose
`nextStep` is present and differs from the preceding one; for "Add salt",
"Add salt", "Stir" they fire on ticks 1 and 3 only, and a repeated non-empty
string fires none after its first occurrence. -/
theorem step_notification_on_change (hap : Hap) (p : Platform)
    (displayName uuid : JsVal) (outs : List Outcome)
    (htoken : truthy p.token = true)
    (hread : ∀ out ∈ outs, nullish out.status = false) :
    (∀ t ∈ poll hap p (setupAccessory displayName uuid) outs,
      (stepNotification t.before (nextStepOf t.out) ∈ t.run.effects ↔
        (truthy (nextStepOf t.out) = true ∧
          strictEq (nextStepOf t.out) t.before.lastNextStep = false)) ∧
      (Effect.update .stepSensorService .ContactSensorState hap.CONTACT_DETECTED ∈
          t.run.effects ↔
        (truthy (nextStepOf t.out) = true ∧
          strictEq (nextStepOf t.out) t.before.lastNextStep = false)) ∧
      (Effect.later 5000 .stepSensorService .ContactSensorState hap.CONTACT_NOT_DETECTED ∈
          t.run.effects ↔
        (truthy (nextStepOf t.out) = true ∧
          strictEq (nextStepOf t.out) t.before.lastNextStep = false)) ∧
      (t.run.effects.countP isStepNotification = 1 ↔
        (truthy (nextStepOf t.out) = true ∧
          strictEq (nextStepOf t.out) t.before.lastNextStep = false)) ∧
      t.run.effects.countP isStepNotification ≤ 1 ∧
      (contextAfter t.before t.run).lastNextStep = nextStepOf t.out) ∧
    (poll hap p (setupAccessory displayName uuid) outs).map
        (fun t => t.run.effects.countP isStepNotification) =
      stepMarks .null (outs.map nextStepOf) ∧
    (outs.map nextStepOf = [.str "Add salt", .str "Add salt", .str "Stir"] →
      (poll hap p (setupAccessory displayName uuid) outs).map
        (fun t => t.run.effects.countP isStepNotification) = [1, 0, 1]) ∧
    (∀ (s : String) (n : Nat), s ≠ "" →
      outs.map nextStepOf = List.replicate (n + 1) (.str s) →
      (poll hap p (setupAccessory displayName uuid) outs).map
        (fun t => t.run.effects.countP isStepNotification) = 1 :: List.replicate n 0) := by
  have hcounts := poll_step_counts hap p htoken outs (setupAccessory displayName uuid) hread
  refine ⟨?_, hcounts, ?_, ?_⟩
  · intro t ht
    obtain ⟨hrun, hst, -⟩ := poll_mem hap p htoken outs (setupAccessory displayName uuid)
      hread (Or.inl rfl) t ht
    have hedge : stepEdge t.before t.out.status = true ↔
        (truthy (nextStepOf t.out) = true ∧
          strictEq (nextStepOf t.out) t.before.lastNextStep = false) := by
      simp [stepEdge, nextStepOf]
    obtain ⟨h1, h2, h3, h4⟩ := tick_step hap p t.before t.out htoken hst
    rw [hrun, ← hedge, h4]
    refine ⟨h1, h2, h3, ?_, ?_, ?_⟩
    · cases stepEdge t.before t.out.status <;> simp
    · cases stepEdge t.before t.out.status <;> simp
    · rw [contextAfter_tick hap p t.before t.out htoken hst]
      rfl
  · intro h
    rw [hcounts, h]
    rfl
  · intro s n hs h
    rw [hcounts, h, List.replicate_succ]
    have hnull : strictEq (.str s) (setupAccessory displayName uuid).lastNextStep = false := rfl
    simp [stepMarks, stepMarks_repeat, truthy, hnull, hs]

theorem step_notification_on_change_witness :
    truthy examplePlatform.token = true ∧
    (∀ out ∈ stepOutcomes, nullish out.status = false) ∧
    (poll exampleHap examplePlatform (setupAccessory (.str "Mambo") (.str "uuid"))
        stepOutcomes).map (fun t => t.run.effects.countP isStepNotification) = [1, 0, 1] :=
  ⟨rfl, by simp [stepOutcomes, Outcome.status, nullish],
    (step_notification_on_change exampleHap examplePlatform (.str "Mambo") (.str "uuid")
      stepOutcomes rfl (by simp [stepOutcomes, Outcome.status, nullish])).2.2.1 rfl⟩

theorem field_empty (key : String) : field (.obj []) key = .undefined := rfl

/-- C5: when the status request of a tick fails, `getStatus` resolves to the
empty snapshot and, whatever the context of the accessory, the callback does
not throw, mirrors temperature 0, humidity 0, pressure 1013 and weight 0 onto
the sensor surfaces, and emits no notification and writes no contact sensor:
none of the step, finished and start edges fires. -/
theorem failed_fetch_mirrors_defaults (hap : Hap) (p : Platform) (acc : Accessory)
    (htoken : truthy p.token = true) :
    getStatus p acc.deviceId .rejected = ⟨[statusRequest p acc], .ok (.obj [])⟩ ∧
    (tick hap p acc .rejected).result =
      .ok { acc with cookingActive := .bool false, lastNextStep := .undefined } ∧
    (tick hap p acc .rejected).effects =
      [statusRequest p acc,
       .update .thermoService .CurrentTemperature (.num 0),
       .update .tempSensorService .CurrentTemperature (.num 0),
       .update .humiditySensorService .CurrentRelativeHumidity (.num 0),
       .update .pressureSensorService .CurrentTemperature (.num 1013),
       .update .weightSensorService .CurrentTemperature (.num 0)] ++
      (if decide (findIndex (fun r => strictEq r.id .undefined) p.recipes ≥ 0) then
        [.update .recipeService .RotationSpeed
          (.num (findIndex (fun r => strictEq r.id .undefined) p.recipes))]
       else []) ∧
    (∀ e ∈ (tick hap p acc .rejected).effects,
      isNotification e = false ∧ isContactWrite e = false) ∧
    (tick hap p acc .rejected).effects.countP isStepNotification = 0 ∧
    (tick hap p acc .rejected).effects.countP isFinishedNotification = 0 ∧
    (tick hap p acc .rejected).effects.countP isStartNotification = 0 := by
  have hst : nullish (Outcome.rejected).status = false := rfl
  have h1 : stepEdge acc (.obj []) = false := rfl
  have h2 : finishedEdge acc (.obj []) = false := rfl
  have h3 : startEdge acc (.obj []) = false := by
    simp [startEdge, field_empty, truthy]
  have hjs : ∀ d : JsVal, jsOr .undefined d = d := fun _ => rfl
  refine ⟨getStatus_of_token htoken _ _, ?_, ?_, ?_, ?_, ?_, ?_⟩
  · rw [tick_eq hap p acc .rejected htoken hst]
    rfl
  · rw [tick_eq hap p acc .rejected htoken hst]
    simp [h1, h2, h3, mirrorEffects, Outcome.status, field_empty, hjs]
  · rw [tick_eq hap p acc .rejected htoken hst]
    cases h4 : decide (findIndex (fun r => strictEq r.id .undefined) p.recipes ≥ 0) <;>
      simp [h1, h2, h3, h4, mirrorEffects, Outcome.status, field_empty, hjs, statusRequest,
        isNotification, isContactWrite]
  · rw [(tick_step hap p acc .rejected htoken hst).2.2.2]
    simp [Outcome.status, h1]
  · rw [(tick_finished hap p acc .rejected htoken hst).2.2.2.2]
    simp [Outcome.status, h2]
  · rw [(tick_start hap p acc .rejected htoken hst).2.2.2]
    simp [Outcome.status, h3]

theorem failed_fetch_mirrors_defaults_witness :
    truthy examplePlatform.token = true ∧
    (tick exampleHap examplePlatform exampleAccessory .rejected).result =
      .ok { exampleAccessory with cookingActive := .bool false, lastNextStep := .undefined } :=
  ⟨rfl, (failed_fetch_mirrors_defaults exampleHap examplePlatform exampleAccessory rfl).2.1⟩

/-! ## The recipe selector, case by case -/

theorem createCustomRecipe_of_token {p : Platform} (h : truthy p.token = true)
    (acc : Accessory) (recipe : Recipe) (out : Outcome) :
    createCustomRecipe p acc.deviceId recipe out =
      ⟨[createRequest p acc recipe], .ok (createdId out)⟩ := by
  cases out with
  | rejected =>
    simp [createCustomRecipe, h, Run.orElse, axiosPost, createdId, createRequest, pure_eq,
      bind_mk_error]
  | resolved data =>
    cases hd : getProp data "recipeId" <;>
      simp [createCustomRecipe, h, Run.orElse, axiosPost, createdId, createRequest, pure_eq,
        bind_mk_ok, Run.after, Run.eval, hd]

theorem createCustomRecipe_no_token {p : Platform} (h : truthy p.token = false)
    (deviceId : JsVal) (recipe : Recipe) (out : Outcome) :
    createCustomRecipe p deviceId recipe out = ⟨[], .ok .null⟩ := by
  simp [createCustomRecipe, h, pure_eq]

theorem startRecipe_of_token {p : Platform} (h : truthy p.token = true)
    (acc : Accessory) (recipeId : JsVal) (out : Outcome) :
    startRecipe p acc.deviceId recipeId out = ⟨[startRequest p acc recipeId], out.settle⟩ := by
  cases out <;> simp [startRecipe, h, axiosPost, startRequest, Outcome.settle]

theorem startRecipe_no_token {p : Platform} (h : truthy p.token = false)
    (deviceId recipeId : JsVal) (out : Outcome) :
    startRecipe p deviceId recipeId out = ⟨[], .ok .undefined⟩ := by
  simp [startRecipe, h, pure_eq]

/-- The recipe selector on a configured recipe, past the lookup of
`this.recipes[value]`. -/
theorem selector_eq (hap : Hap) (p : Platform) (acc : Accessory)
    (createOut startOut : Outcome) (value : Int) (recipe : Recipe)
    (hrecipe : recipeAt p.recipes value = some recipe) :
    onSetRotationSpeed hap p acc createOut startOut value =
      (do
        let recipeId ←
          if truthy recipe.stepsVal then createCustomRecipe p acc.deviceId recipe createOut
          else pure recipe.id
        Run.whenever (truthy recipeId) (do
          let _ ← startRecipe p acc.deviceId recipeId startOut
          pure ())
        Run.emit [selectorLog acc recipe, .update .recipeService .Active hap.ACTIVE]) := by
  simp [onSetRotationSpeed, hrecipe, selectorLog]

theorem truthy_null : truthy .null = false := rfl

/-- The recipe selector on a configured recipe: the calls it makes, in order,
and how it settles. -/
theorem selector_run (hap : Hap) (p : Platform) (acc : Accessory)
    (createOut startOut : Outcome) (value : Int) (recipe : Recipe)
    (hrecipe : recipeAt p.recipes value = some recipe) :
    onSetRotationSpeed hap p acc createOut startOut value =
      ⟨(if truthy recipe.stepsVal && truthy p.token then [createRequest p acc recipe] else []) ++
        (if truthy (selectedId p recipe createOut) && truthy p.token then
          [startRequest p acc (selectedId p recipe createOut)] else []) ++
        (if truthy (selectedId p recipe createOut) && truthy p.token && startOut.fails then []
         else [selectorLog acc recipe, .update .recipeService .Active hap.ACTIVE]),
       if truthy (selectedId p recipe createOut) && truthy p.token && startOut.fails then
         .error .requestFailed
       else .ok ()⟩ := by
  rw [selector_eq hap p acc createOut startOut value recipe hrecipe]
  unfold selectedId
  cases hs : truthy recipe.stepsVal <;> cases ht : truthy p.token
  · -- no steps, no token
    cases hi : truthy recipe.id <;>
      simp [hi, bind_pure, Run.whenever, startRecipe_no_token ht, bind_mk_ok, Run.after,
        emit_eq, pure_eq, Run.ret]
  · cases hi : truthy recipe.id <;> cases startOut <;>
      simp [hi, bind_pure, Run.whenever, startRecipe_of_token ht, bind_mk_ok, bind_mk_error,
        Run.after, emit_eq, pure_eq, Run.ret, Outcome.settle, Outcome.fails]
  · simp [createCustomRecipe_no_token ht, bind_mk_ok, Run.after, Run.whenever, truthy_null,
      emit_eq, pure_eq, Run.ret]
  · cases hi : truthy (createdId createOut) <;> cases startOut <;>
      simp [hi, createCustomRecipe_of_token ht, bind_mk_ok, bind_mk_error, Run.whenever,
        startRecipe_of_token ht, Run.after, emit_eq, pure_eq, Run.ret, Outcome.settle,
        Outcome.fails]

theorem truthy_stepsVal (recipe : Recipe) : truthy recipe.stepsVal = recipe.steps.isSome := by
  unfold Recipe.stepsVal
  cases recipe.steps <;> rfl

theorem recipeAt_none_iff (recipes : List Recipe) (value : Int) :
    recipeAt recipes value = none ↔ (value < 0 ∨ (recipes.length : Int) ≤ value) := by
  unfold recipeAt
  by_cases h : 0 ≤ value
  · simp only [h, if_true, List.get?_eq_none]
    omega
  · simp only [h, if_false, true_iff]
    omega

/-! ## The claims on the recipe selector -/

/-- C4, as stated, fails: a configured recipe without steps whose own id is 0
is selected with a token present, and no start-recipe request is made. -/
theorem selector_zero_id_starts_nothing :
    recipeAt zeroIdPlatform.recipes 0 =
      some { id := .num 0, name := .str "Rice", steps := none } ∧
    (onSetRotationSpeed exampleHap zeroIdPlatform exampleAccessory
        (.resolved (.obj [])) (.resolved (.obj [])) 0).effects =
      [.log [.value (.str "Mambo"), .text ": Iniciando ", .value (.str "Rice")],
       .update .recipeService .Active (.num 1)] ∧
    startRequest zeroIdPlatform exampleAccessory (.num 0) ∉
      (onSetRotationSpeed exampleHap zeroIdPlatform exampleAccessory
        (.resolved (.obj [])) (.resolved (.obj [])) 0).effects := by
  have h : (onSetRotationSpeed exampleHap zeroIdPlatform exampleAccessory
        (.resolved (.obj [])) (.resolved (.obj [])) 0).effects =
      [.log [.value (.str "Mambo"), .text ": Iniciando ", .value (.str "Rice")],
       .update .recipeService .Active (.num 1)] := rfl
  refine ⟨rfl, h, ?_⟩
  rw [h]
  simp [startRequest]

/-- C4, amended: on a configured recipe that carries steps the remote calls of
the selector are, with a token present, the create-recipe request followed,
only when it yields a truthy id, by one start-recipe request for that very
id, and none at all without a token; so no start-recipe request is made when
create-recipe yields no id.  On a recipe without steps no create-recipe
request is made, and the only remote call is one start-recipe request for the
recipe's own id when that id is truthy and a token is present; with a falsy
id (absent, null, 0, empty) no start-recipe request is made. -/
theorem selector_create_before_start (hap : Hap) (p : Platform) (acc : Accessory)
    (createOut startOut : Outcome) (value : Int) (recipe : Recipe)
    (hrecipe : recipeAt p.recipes value = some recipe) :
    (recipe.steps.isSome = true →
      (onSetRotationSpeed hap p acc createOut startOut value).effects.filter isPost =
        (if truthy p.token then
          createRequest p acc recipe ::
            (if truthy (createdId createOut) then [startRequest p acc (createdId createOut)]
             else [])
         else []) ∧
      ((truthy p.token = false ∨ truthy (createdId createOut) = false) →
        ∀ e ∈ (onSetRotationSpeed hap p acc createOut startOut value).effects,
          isStartRequest e = false)) ∧
    (recipe.steps = none →
      (onSetRotationSpeed hap p acc createOut startOut value).effects.filter isPost =
        (if truthy recipe.id && truthy p.token then [startRequest p acc recipe.id] else []) ∧
      (∀ e ∈ (onSetRotationSpeed hap p acc createOut startOut value).effects,
        isCreateRequest e = false) ∧
      (truthy recipe.id = false →
        ∀ e ∈ (onSetRotationSpeed hap p acc createOut startOut value).effects,
          isStartRequest e = false)) := by
  rw [selector_run hap p acc createOut startOut value recipe hrecipe]
  constructor
  · intro hs
    have hs' : truthy recipe.stepsVal = true := by rw [truthy_stepsVal, hs]
    unfold selectedId
    cases ht : truthy p.token <;> cases hi : truthy (createdId createOut) <;>
      cases startOut <;>
      simp [hs', ht, hi, truthy_null, Outcome.fails, isPost, createRequest, startRequest,
        selectorLog, isStartRequest]
  · intro hs
    have hs' : truthy recipe.stepsVal = false := by rw [truthy_stepsVal, hs]; rfl
    unfold selectedId
    cases ht : truthy p.token <;> cases hi : truthy recipe.id <;> cases startOut <;>
      simp [hs', ht, hi, Outcome.fails, isPost, startRequest, selectorLog, isStartRequest,
        isCreateRequest]

theorem selector_create_before_start_witness :
    recipeAt examplePlatform.recipes 1 =
      some { id := .num 7, name := .str "Rice", steps := none } ∧
    (onSetRotationSpeed exampleHap examplePlatform exampleAccessory .rejected
        (.resolved (.obj [])) 1).effects.filter isPost =
      [startRequest examplePlatform exampleAccessory (.num 7)] :=
  ⟨rfl, ((selector_create_before_start exampleHap examplePlatform exampleAccessory .rejected
    (.resolved (.obj [])) 1 { id := .num 7, name := .str "Rice", steps := none } rfl).2 rfl).1⟩

/-- C7, as stated, fails: a recipe with steps is selected, create-recipe fails
and yields no id, no start-recipe request is made, and the handler still sets
the recipe-active indicator to ACTIVE. -/
theorem selector_active_without_id :
    createdId .rejected = .null ∧
    (onSetRotationSpeed exampleHap examplePlatform exampleAccessory .rejected
        (.resolved (.obj [])) 0).effects =
      [createRequest examplePlatform exampleAccessory
         { id := .undefined, name := .str "Custom",
           steps := some [[("time", .num 5), ("speed", .num 2)]] },
       .log [.value (.str "Mambo"), .text ": Iniciando ", .value (.str "Custom")],
       .update .recipeService .Active exampleHap.ACTIVE] ∧
    Effect.update .recipeService .Active exampleHap.ACTIVE ∈
      (onSetRotationSpeed exampleHap examplePlatform exampleAccessory .rejected
        (.resolved (.obj [])) 0).effects ∧
    (∀ e ∈ (onSetRotationSpeed exampleHap examplePlatform exampleAccessory .rejected
        (.resolved (.obj [])) 0).effects, isStartRequest e = false) := by
  have h : (onSetRotationSpeed exampleHap examplePlatform exampleAccessory .rejected
        (.resolved (.obj [])) 0).effects =
      [createRequest examplePlatform exampleAccessory
         { id := .undefined, name := .str "Custom",
           steps := some [[("time", .num 5), ("speed", .num 2)]] },
       .log [.value (.str "Mambo"), .text ": Iniciando ", .value (.str "Custom")],
       .update .recipeService .Active exampleHap.ACTIVE] := rfl
  refine ⟨rfl, h, ?_, ?_⟩
  · rw [h]; simp
  · rw [h]; simp [createRequest, isStartRequest]

/-- C7, amended: on a configured recipe the selector sets the recipe-active
indicator to ACTIVE exactly when it runs to its end, that is unless a
start-recipe request was made and failed; it sets it in particular when no
start-recipe request was made at all (no recipe id obtained, or no token), and
does not set it when the start-recipe request fails. -/
theorem selector_active_unless_start_fails (hap : Hap) (p : Platform) (acc : Accessory)
    (createOut startOut : Outcome) (value : Int) (recipe : Recipe)
    (hrecipe : recipeAt p.recipes value = some recipe) :
    (Effect.update .recipeService .Active hap.ACTIVE ∈
        (onSetRotationSpeed hap p acc createOut startOut value).effects ↔
      ¬ (startOut.fails = true ∧
          ∃ e ∈ (onSetRotationSpeed hap p acc createOut startOut value).effects,
            isStartRequest e = true)) ∧
    ((∀ e ∈ (onSetRotationSpeed hap p acc createOut startOut value).effects,
        isStartRequest e = false) →
      Effect.update .recipeService .Active hap.ACTIVE ∈
        (onSetRotationSpeed hap p acc createOut startOut value).effects) ∧
    (truthy (selectedId p recipe createOut) = false →
      (∀ e ∈ (onSetRotationSpeed hap p acc createOut startOut value).effects,
        isStartRequest e = false) ∧
      Effect.update .recipeService .Active hap.ACTIVE ∈
        (onSetRotationSpeed hap p acc createOut startOut value).effects) := by
  rw [selector_run hap p acc createOut startOut value recipe hrecipe]
  cases hs : truthy recipe.stepsVal <;> cases ht : truthy p.token <;>
    cases hi : truthy (selectedId p recipe createOut) <;> cases startOut <;>
    simp [Outcome.fails, createRequest, startRequest, selectorLog, isStartRequest]

theorem selector_active_unless_start_fails_witness :
    recipeAt examplePlatform.recipes 0 =
      some { id := .undefined, name := .str "Custom",
             steps := some [[("time", .num 5), ("speed", .num 2)]] } ∧
    (Effect.update .recipeService .Active exampleHap.ACTIVE ∈
        (onSetRotationSpeed exampleHap examplePlatform exampleAccessory
          (.resolved (.obj [("recipeId", .num 9)])) .rejected 0).effects ↔
      ¬ ((Outcome.rejected).fails = true ∧
          ∃ e ∈ (onSetRotationSpeed exampleHap examplePlatform exampleAccessory
              (.resolved (.obj [("recipeId", .num 9)])) .rejected 0).effects,
            isStartRequest e = true)) :=
  ⟨rfl, (selector_active_unless_start_fails exampleHap examplePlatform exampleAccessory
    (.resolved (.obj [("recipeId", .num 9)])) .rejected 0
    { id := .undefined, name := .str "Custom",
      steps := some [[("time", .num 5), ("speed", .num 2)]] } rfl).1⟩

/-- C9: a set event of the recipe selector whose value has no configured
recipe (an index below 0 or not below the number of recipes, so every value
when the list is empty) makes no call at all: no remote call, no logged line,
no write to the recipe-active indicator, and the handler completes. -/
theorem selector_out_of_range_inert (hap : Hap) (p : Platform) (acc : Accessory)
    (createOut startOut : Outcome) (value : Int) :
    ((value < 0 ∨ (p.recipes.length : Int) ≤ value) →
      recipeAt p.recipes value = none ∧
      (onSetRotationSpeed hap p acc createOut startOut value).effects = [] ∧
      (onSetRotationSpeed hap p acc createOut startOut value).result = .ok ()) ∧
    (p.recipes = [] →
      (onSetRotationSpeed hap p acc createOut startOut value).effects = [] ∧
      (onSetRotationSpeed hap p acc createOut startOut value).result = .ok ()) := by
  have key : recipeAt p.recipes value = none →
      (onSetRotationSpeed hap p acc createOut startOut value).effects = [] ∧
      (onSetRotationSpeed hap p acc createOut startOut value).result = .ok () := by
    intro h
    simp [onSetRotationSpeed, h, pure_eq]
  constructor
  · intro h
    have hn := (recipeAt_none_iff p.recipes value).2 h
    exact ⟨hn, key hn⟩
  · intro h
    apply key
    rw [recipeAt_none_iff, h]
    simp only [List.length_nil, Nat.cast_zero]
    omega

theorem selector_out_of_range_inert_witness :
    ((2 : Int) < 0 ∨ (examplePlatform.recipes.length : Int) ≤ 2) ∧
    (onSetRotationSpeed exampleHap examplePlatform exampleAccessory
      (.resolved (.obj [("recipeId", .num 9)])) (.resolved (.obj [])) 2).effects = [] :=
  ⟨Or.inr (by decide), ((selector_out_of_range_inert exampleHap examplePlatform exampleAccessory
    (.resolved (.obj [("recipeId", .num 9)])) (.resolved (.obj [])) 2).1
      (Or.inr (by decide))).2.1⟩

/-! ## Login -/

/-- C8: `login()` never raises; when the auth request fails the token is the
one before the call and the error is only logged; when it succeeds with a body
whose fields can be read the token is the `token` field of the response.  (A
successful response whose body is `null` or absent has no field to read: the
read is caught like a failure and the token stays.) -/
theorem login_never_raises (p : Platform) (out : Outcome) :
    (∃ p', (login p out).result = .ok p') ∧
    (out = .rejected →
      login p out =
        ⟨[loginRequest p, .log [.text "Error login:", .message .requestFailed]], .ok p⟩) ∧
    (∀ data, out = .resolved data → nullish data = false →
      login p out =
        ⟨[loginRequest p, .log [.text "Login exitoso"]],
          .ok { p with token := field data "token" }⟩) ∧
    (∀ data, out = .resolved data → nullish data = true →
      login p out =
        ⟨[loginRequest p, .log [.text "Error login:", .message .typeError]], .ok p⟩) := by
  have hrej : login p .rejected =
      ⟨[loginRequest p, .log [.text "Error login:", .message .requestFailed]], .ok p⟩ := by
    simp [login, axiosPost, bind_mk_error, bind_mk_ok, Run.orElse, emit_eq, pure_eq,
      loginRequest, Run.after]
  have hok : ∀ data, nullish data = false → login p (.resolved data) =
      ⟨[loginRequest p, .log [.text "Login exitoso"]],
        .ok { p with token := field data "token" }⟩ := by
    intro data hd
    simp [login, axiosPost, bind_mk_ok, getProp_of_not_nullish hd, bind_eval_ok, Run.orElse,
      emit_eq, pure_eq, loginRequest, Run.after]
  have hnull : ∀ data, nullish data = true → login p (.resolved data) =
      ⟨[loginRequest p, .log [.text "Error login:", .message .typeError]], .ok p⟩ := by
    intro data hd
    cases data <;> simp [nullish] at hd <;>
      simp [login, axiosPost, bind_mk_ok, getProp, Run.eval, bind_mk_error, Run.orElse,
        emit_eq, pure_eq, loginRequest, Run.after]
  refine ⟨?_, ?_, ?_, ?_⟩
  · cases out with
    | rejected => exact ⟨p, by rw [hrej]⟩
    | resolved data =>
      cases hd : nullish data
      · exact ⟨_, by rw [hok data hd]⟩
      · exact ⟨p, by rw [hnull data hd]⟩
  · rintro rfl; exact hrej
  · rintro data rfl hd; exact hok data hd
  · rintro data rfl hd; exact hnull data hd

theorem login_never_raises_witness :
    nullish (.obj [("token", .str "fresh")]) = false ∧
    login examplePlatform (.resolved (.obj [("token", .str "fresh")])) =
      ⟨[loginRequest examplePlatform, .log [.text "Login exitoso"]],
        .ok { examplePlatform with token := .str "fresh" }⟩ :=
  ⟨rfl, (login_never_raises examplePlatform (.resolved (.obj [("token", .str "fresh")]))).2.2.1
    _ rfl rfl⟩

/-! ## Failing commands -/

/-- C6, evaluated on a failing request with a token present:
`createCustomRecipe` catches the failure and resolves to `null`, but
`editRecipe`, `startRecipe`, `stopRecipe` and `keepWarm` reject, and so do the
four handlers that await them. -/
theorem command_failure_escapes :
    (createCustomRecipe examplePlatform (.str "uuid")
        { id := .undefined, name := .str "Custom", steps := some [] } .rejected).result =
      .ok .null ∧
    (editRecipe examplePlatform (.str "uuid") (.num 7) [] .rejected).result =
      .error .requestFailed ∧
    (startRecipe examplePlatform (.str "uuid") (.num 7) .rejected).result =
      .error .requestFailed ∧
    (stopRecipe examplePlatform (.str "uuid") .rejected).result = .error .requestFailed ∧
    (keepWarm examplePlatform (.str "uuid") .rejected).result = .error .requestFailed ∧
    (onSetRotationSpeed exampleHap examplePlatform exampleAccessory
        (.resolved (.obj [])) .rejected 1).result = .error .requestFailed ∧
    (onSetEdit examplePlatform exampleAccessory
        (.resolved (.obj [("currentRecipeId", .num 7)])) .rejected (.bool true)).result =
      .error .requestFailed ∧
    (onSetActive exampleHap examplePlatform exampleAccessory .rejected (.num 0)).result =
      .error .requestFailed ∧
    (onSetTargetTemperature examplePlatform exampleAccessory .rejected (.num 60)).result =
      .error .requestFailed :=
  ⟨rfl, rfl, rfl, rfl, rfl, rfl, rfl, rfl, rfl⟩

/-! ## The edit toggle -/

theorem editRecipe_of_token {p : Platform} (h : truthy p.token = true) (acc : Accessory)
    (recipe : Recipe) (out : Outcome) :
    editRecipe p acc.deviceId recipe.id (editUpdates recipe) out =
      ⟨[editRequest p acc recipe], out.settle⟩ := by
  cases out <;>
    simp [editRecipe, h, axiosPost, editRequest, Outcome.settle, spread, editUpdates, setField]

theorem find_first {α : Type} (f : α → Bool) (pre post : List α) (r : α)
    (hpre : ∀ x ∈ pre, f x = false) (hr : f r = true) :
    (pre ++ r :: post).find? f = some r := by
  induction pre with
  | nil => simp [List.find?, hr]
  | cons x pre ih =>
    have hx : f x = false := hpre x (List.mem_cons_self _ _)
    simp only [List.cons_append, List.find?, hx]
    exact ih (fun y hy => hpre y (List.mem_cons_of_mem _ hy))

theorem lookup_cons_ne (key k : String) (v : JsVal) (rest : List (String × JsVal))
    (h : key ≠ k) : List.lookup key ((k, v) :: rest) = List.lookup key rest := by
  have hb : (key == k) = false := by simpa using h
  simp [List.lookup, hb]

theorem lookup_cons_self (k : String) (v : JsVal) (rest : List (String × JsVal)) :
    List.lookup k ((k, v) :: rest) = some v := by
  simp [List.lookup]

theorem lookup_setField_self (fields : List (String × JsVal)) (k : String) (v : JsVal) :
    (setField fields k v).lookup k = some v := by
  induction fields with
  | nil => exact lookup_cons_self k v []
  | cons kv rest ih =>
    obtain ⟨k', v'⟩ := kv
    by_cases h : k' = k
    · subst h
      simp only [setField, beq_self_eq_true, if_true]
      exact lookup_cons_self _ _ _
    · have hb : (k' == k) = false := by simpa using h
      simp only [setField, hb]
      rw [if_neg (by simp), lookup_cons_ne k k' v' _ (fun e => h e.symm)]
      exact ih

theorem lookup_setField_other (fields : List (String × JsVal)) (k key : String) (v : JsVal)
    (hkey : key ≠ k) : (setField fields k v).lookup key = fields.lookup key := by
  induction fields with
  | nil =>
    simp only [setField]
    rw [lookup_cons_ne key k v [] hkey]
  | cons kv rest ih =>
    obtain ⟨k', v'⟩ := kv
    by_cases h : k' = k
    · subst h
      simp only [setField, beq_self_eq_true, if_true]
      rw [lookup_cons_ne key _ v rest hkey, lookup_cons_ne key _ v' rest hkey]
    · have hb : (k' == k) = false := by simpa using h
      simp only [setField, hb]
      rw [if_neg (by simp)]
      by_cases h2 : key = k'
      · subst h2
        rw [lookup_cons_self, lookup_cons_self]
      · rw [lookup_cons_ne key k' v' _ h2, lookup_cons_ne key k' v' _ h2]
        exact ih

/-- The edit handler switched on with a token present and a snapshot whose
fields can be read. -/
theorem edit_run (p : Platform) (acc : Accessory) (statusOut editOut : Outcome) (value : JsVal)
    (hvalue : truthy value = true) (htoken : truthy p.token = true)
    (hstatus : nullish statusOut.status = false) :
    onSetEdit p acc statusOut editOut value =
      match p.recipes.find? (fun r => strictEq r.id (field statusOut.status "currentRecipeId")) with
      | some r =>
        ⟨[statusRequest p acc, editRequest p acc r] ++
            (if editOut.fails then [] else [editLog acc, .update .editService .On (.bool false)]),
          if editOut.fails then .error .requestFailed else .ok ()⟩
      | none => ⟨[statusRequest p acc, .update .editService .On (.bool false)], .ok ()⟩ := by
  simp only [onSetEdit, hvalue, if_true, getStatus_of_token htoken, bind_mk_ok,
    getProp_of_not_nullish hstatus, bind_eval_ok]
  cases hf : p.recipes.find? (fun r => strictEq r.id (field statusOut.status "currentRecipeId"))
    with
  | none => simp [editFound, bind_pure, emit_eq, Run.after, statusRequest]
  | some r =>
    cases editOut <;>
      simp [editFound, editRecipe_of_token htoken, bind_mk_ok, bind_mk_error, emit_eq,
        Run.after, Outcome.settle, Outcome.fails, statusRequest, editLog]

/-- The edit handler switched on without a token. -/
theorem edit_run_no_token (p : Platform) (acc : Accessory) (statusOut editOut : Outcome)
    (value : JsVal) (hvalue : truthy value = true) (htoken : truthy p.token = false) :
    onSetEdit p acc statusOut editOut value =
      match p.recipes.find? (fun r => strictEq r.id .undefined) with
      | some _ => ⟨[editLog acc, .update .editService .On (.bool false)], .ok ()⟩
      | none => ⟨[.update .editService .On (.bool false)], .ok ()⟩ := by
  have hg : getStatus p acc.deviceId statusOut = ⟨[], .ok (.obj [])⟩ := by
    simp [getStatus, htoken, pure_eq]
  have hprop : getProp (.obj []) "currentRecipeId" = .ok .undefined := rfl
  simp only [onSetEdit, hvalue, if_true, hg, bind_mk_ok, hprop, bind_eval_ok]
  cases hf : p.recipes.find? (fun r => strictEq r.id .undefined) with
  | none => simp [editFound, bind_pure, emit_eq, Run.after]
  | some r =>
    simp [editFound, editRecipe, htoken, pure_eq, bind_mk_ok, emit_eq, Run.after, editLog]

/-- C10, as stated, fails: with no token the fetched status is the empty
snapshot, whose absent `currentRecipeId` equals (`===`) the absent id of the
configured recipe "Custom"; the handler finds that recipe, logs the edit and
resets the toggle, and sends no edit-recipe call. -/
theorem edit_without_token_sends_nothing :
    (getStatus loggedOutPlatform exampleAccessory.deviceId .rejected).result = .ok (.obj []) ∧
    loggedOutPlatform.recipes.find?
        (fun r => strictEq r.id (field (.obj []) "currentRecipeId")) =
      some { id := .undefined, name := .str "Custom",
             steps := some [[("time", .num 5), ("speed", .num 2)]] } ∧
    onSetEdit loggedOutPlatform exampleAccessory .rejected (.resolved (.obj [])) (.bool true) =
      ⟨[editLog exampleAccessory, .update .editService .On (.bool false)], .ok ()⟩ ∧
    (onSetEdit loggedOutPlatform exampleAccessory .rejected (.resolved (.obj []))
        (.bool true)).effects.countP isEditRequest = 0 :=
  ⟨rfl, rfl, rfl, rfl⟩

/-- C10, amended: a set event of the edit toggle with value off has no effect.
With value on, a token present and a status whose fields can be read: if a
configured recipe's id equals the status's `currentRecipeId`, the remote calls
are the status request and exactly one edit-recipe call, for the first such
recipe's id, with name 'Receta Editada' and one step, that recipe's first step
(empty when it has none) with `time` set to 15 and every other field kept, and
when that call succeeds the edit is logged and the toggle reset to off; if no
configured recipe matches, no edit-recipe call is sent and, after the status
request, the only call is the reset of the toggle.  With value on and no token
no remote call is sent at all and the toggle is reset. -/
theorem edit_toggle_edits_first_match (p : Platform) (acc : Accessory)
    (statusOut editOut : Outcome) (value : JsVal) :
    (truthy value = false → onSetEdit p acc statusOut editOut value = ⟨[], .ok ()⟩) ∧
    (truthy value = true → truthy p.token = true → nullish statusOut.status = false →
      (∀ (pre post : List Recipe) (r : Recipe), p.recipes = pre ++ r :: post →
        (∀ x ∈ pre, strictEq x.id (field statusOut.status "currentRecipeId") = false) →
        strictEq r.id (field statusOut.status "currentRecipeId") = true →
        (onSetEdit p acc statusOut editOut value).effects.filter isPost =
          [statusRequest p acc, editRequest p acc r] ∧
        (onSetEdit p acc statusOut editOut value).effects.countP isEditRequest = 1 ∧
        (editOut.fails = false →
          onSetEdit p acc statusOut editOut value =
            ⟨[statusRequest p acc, editRequest p acc r, editLog acc,
              .update .editService .On (.bool false)], .ok ()⟩)) ∧
      ((∀ x ∈ p.recipes, strictEq x.id (field statusOut.status "currentRecipeId") = false) →
        onSetEdit p acc statusOut editOut value =
          ⟨[statusRequest p acc, .update .editService .On (.bool false)], .ok ()⟩)) ∧
    (truthy value = true → truthy p.token = false →
      (∀ e ∈ (onSetEdit p acc statusOut editOut value).effects, isPost e = false) ∧
      Effect.update .editService .On (.bool false) ∈
        (onSetEdit p acc statusOut editOut value).effects ∧
      (onSetEdit p acc statusOut editOut value).result = .ok ()) ∧
    (∀ (r : Recipe) (key : String),
      (setField (firstStepFields r) "time" (.num 15)).lookup "time" = some (.num 15) ∧
      (key ≠ "time" →
        (setField (firstStepFields r) "time" (.num 15)).lookup key =
          (firstStepFields r).lookup key)) := by
  refine ⟨?_, ?_, ?_, ?_⟩
  · intro hv
    simp [onSetEdit, hv, pure_eq]
  · intro hv ht hs
    rw [edit_run p acc statusOut editOut value hv ht hs]
    constructor
    · intro pre post r hrec hpre hr
      rw [hrec, find_first _ pre post r hpre hr]
      cases editOut <;>
        simp [Outcome.fails, isPost, isEditRequest, statusRequest, editRequest, editLog,
          List.countP_cons]
    · intro hnone
      have hf : p.recipes.find?
          (fun r => strictEq r.id (field statusOut.status "currentRecipeId")) = none := by
        rw [List.find?_eq_none]
        intro x hx
        simp [hnone x hx]
      rw [hf]
  · intro hv ht
    rw [edit_run_no_token p acc statusOut editOut value hv ht]
    cases p.recipes.find? (fun r => strictEq r.id .undefined) <;> simp [isPost, editLog]
  · intro r key
    exact ⟨lookup_setField_self _ _ _, fun h => lookup_setField_other _ _ _ _ h⟩

theorem edit_toggle_edits_first_match_witness :
    truthy (.bool true) = true ∧ truthy examplePlatform.token = true ∧
    nullish (Outcome.resolved (.obj [("currentRecipeId", .num 7)])).status = false ∧
    onSetEdit examplePlatform exampleAccessory (.resolved (.obj [("currentRecipeId", .num 7)]))
        (.resolved (.obj [])) (.bool true) =
      ⟨[statusRequest examplePlatform exampleAccessory,
        editRequest examplePlatform exampleAccessory
          { id := .num 7, name := .str "Rice", steps := none },
        editLog exampleAccessory, .update .editService .On (.bool false)], .ok ()⟩ :=
  ⟨rfl, rfl, rfl,
    (((edit_toggle_edits_first_match examplePlatform exampleAccessory
      (.resolved (.obj [("currentRecipeId", .num 7)])) (.resolved (.obj []))
      (.bool true)).2.1 rfl rfl rfl).1
      [{ id := .undefined, name := .str "Custom",
         steps := some [[("time", .num 5), ("speed", .num 2)]] }] []
      { id := .num 7, name := .str "Rice", steps := none } rfl
      (by intro x hx; simp only [List.mem_singleton] at hx; subst hx; rfl) rfl).2.2 rfl⟩

end Mambo
